import Mathlib

/-!
Shallow embedding of `src/main.py`, a Telegram bot that forwards text prompts
to an asynchronous image-generation HTTP service.

The embedding abstracts the two external collaborators exactly at the
boundaries the code uses them:

* the HTTP client is modelled by the responses it yields: the job-creation
  POST response (`CreateResponse`) and one status GET response per poll
  attempt (`polls : Nat → PollResponse`);
* the Telegram transport is modelled by the replies the handlers emit
  (`Reply`) and the inbound events they receive (`Event`).

Machine effects the claims talk about — number of status polls, seconds of
`time.sleep`, log records, exceptions — are tracked explicitly in the result
records.  A Python exception (`requests.HTTPError` from `raise_for_status`,
`KeyError` from a missing JSON key) is an `Except.error`.
-/

namespace TgBot

/-- Exceptions the modelled code can raise: `requests.HTTPError` raised by
`response.raise_for_status()`, and `KeyError` raised by indexing a JSON
object with a missing key. -/
inductive PyError where
  | httpError
  | keyError (key : String)
deriving DecidableEq

/-- Response of the job-creation POST (`{base}v1/images/generations`).
`httpError` is true when the HTTP status is an error one (so
`raise_for_status` raises); `task_id` is the `"task_id"` field of the JSON
body, `none` when the key is absent. -/
structure CreateResponse where
  httpError : Bool
  task_id : Option String

/-- Response of one status GET (`{base}v1/tasks/{task_id}`).  `task_status`
and `output_images` are the corresponding JSON fields, `none` when the key
is absent. -/
structure PollResponse where
  httpError : Bool
  task_status : Option String
  output_images : Option (List String)

/-- Log records emitted by `generate_image_from_prompt` (logger.warning /
logger.error calls), by the branch that emits them. -/
inductive LogEvent where
  | warnSucceedNoImage
  | errFailed
  | warnUnknownStatus (st : String)
  | errTimeout
deriving DecidableEq

/-- Observable outcome of one call to `generate_image_from_prompt`:
the returned value or raised exception, the number of status GETs made,
the total seconds slept, and the log records emitted. -/
structure GenResult where
  result : Except PyError (Option String)
  pollCount : Nat
  sleepSeconds : Nat
  logs : List LogEvent

/-- The `for _ in range(20)` polling loop of `generate_image_from_prompt`
(main.py lines 92–117), with the remaining iteration count as first Nat
argument and the index of the next poll as second.  Each iteration sleeps 5
seconds, GETs the task status (`polls i`), raises on an HTTP error status,
then dispatches on `task_status`:
`SUCCEED` → first entry of `output_images` if non-empty, else warn and
return `None`; `FAILED` → log and return `None`; `RUNNING`/`PENDING` →
next iteration; anything else → warn and return `None`.  When the loop
exhausts its iterations it logs a timeout and returns `None`. -/
def pollLoop (polls : Nat → PollResponse) : Nat → Nat → GenResult
  | 0, _ => ⟨Except.ok none, 0, 0, [LogEvent.errTimeout]⟩
  | n + 1, i =>
    if (polls i).httpError then ⟨Except.error PyError.httpError, 1, 5, []⟩
    else
      match (polls i).task_status with
      | none => ⟨Except.error (PyError.keyError "task_status"), 1, 5, []⟩
      | some st =>
        if st = "SUCCEED" then
          match (polls i).output_images with
          | none => ⟨Except.error (PyError.keyError "output_images"), 1, 5, []⟩
          | some [] => ⟨Except.ok none, 1, 5, [LogEvent.warnSucceedNoImage]⟩
          | some (img :: _) => ⟨Except.ok (some img), 1, 5, []⟩
        else if st = "FAILED" then ⟨Except.ok none, 1, 5, [LogEvent.errFailed]⟩
        else if st = "RUNNING" ∨ st = "PENDING" then
          ⟨(pollLoop polls n (i + 1)).result,
           (pollLoop polls n (i + 1)).pollCount + 1,
           (pollLoop polls n (i + 1)).sleepSeconds + 5,
           (pollLoop polls n (i + 1)).logs⟩
        else ⟨Except.ok none, 1, 5, [LogEvent.warnUnknownStatus st]⟩

/-- `generate_image_from_prompt` (main.py lines 77–117): POST the creation
request, raise on an HTTP error status, extract `task_id` from the JSON
body (KeyError if absent), then run the polling loop with 20 attempts.
The prompt string itself only travels into the request body, so it does not
appear as a parameter of the observable outcome. -/
def generate_image_from_prompt (create : CreateResponse)
    (polls : Nat → PollResponse) : GenResult :=
  if create.httpError then ⟨Except.error PyError.httpError, 0, 0, []⟩
  else
    match create.task_id with
    | none => ⟨Except.error (PyError.keyError "task_id"), 0, 0, []⟩
    | some _ => pollLoop polls 20 0

/-! ### Conversation state tracker and Telegram handlers -/

/-- Telegram user identifiers (opaque; only equality is used). -/
abbrev UserId := Nat

/-- The global `user_states` dict (main.py line 40): a partial map from user
id to the state string.  The only value the code ever stores is
`"waiting_for_prompt"`; an absent entry is the implicit idle state. -/
abbrev UserStates := UserId → Option String

/-- The initial, empty `user_states = {}`. -/
def emptyStates : UserStates := fun _ => none

/-- `user_states[u] = v` (dict assignment). -/
def setState (s : UserStates) (u : UserId) (v : String) : UserStates :=
  fun x => if x = u then some v else s x

/-- `del user_states[u]` (main.py line 63). -/
def delState (s : UserStates) (u : UserId) : UserStates :=
  fun x => if x = u then none else s x

/-- Outbound messages the handlers emit, one constructor per
`reply_text` / `edit_message_text` / `reply_photo` call site in main.py. -/
inductive Reply where
  | startGreeting
  | enterPromptEdit
  | generationStarted (prompt : String)
  | photo (url : String)
  | generationFailed
  | genericError
  | pressButtonFirst
deriving DecidableEq

/-- Lifecycle events of a `GenerationJob`: `submit u` marks the moment
`generate_image_from_prompt` is entered on behalf of user `u` (the job is
submitted to the service), `resolve u` the moment that call returns or
raises (the job is no longer outstanding for the program). -/
inductive JobAction where
  | submit (u : UserId)
  | resolve (u : UserId)
deriving DecidableEq

/-- Observable outcome of one `handle_message` invocation: the updated
`user_states`, the replies sent (in order), and the job lifecycle actions
performed. -/
structure HandleResult where
  states : UserStates
  replies : List Reply
  jobActions : List JobAction

/-- The `/start` handler (main.py lines 42–46): sends the greeting with the
trigger button and leaves `user_states` untouched. -/
def start (s : UserStates) : UserStates × List Reply :=
  (s, [Reply.startGreeting])

/-- The callback-query handler `button` (main.py lines 48–55): on callback
data `"generate_image"` it sets the user's state to `"waiting_for_prompt"`
and edits the message to ask for the prompt text; any other callback data
does nothing. -/
def button (s : UserStates) (u : UserId) (callbackData : String) :
    UserStates × List Reply :=
  if callbackData = "generate_image" then
    (setState s u "waiting_for_prompt", [Reply.enterPromptEdit])
  else (s, [])

/-- The accepted-prompt branch of `handle_message` (main.py lines 61–73),
entered with `user_states` already updated by `del user_states[user_id]`
(the argument `s1`).  It has replied "Начинаю генерацию…", then calls
`generate_image_from_prompt` inside `try`, whose outcome is the `gen`
argument: a returned URL posts the photo, a returned `None` yields the
"try again" text, and any raised exception is caught by `except Exception`
and yields the generic error text.  In every case the call is entered
(`submit`) and finishes (`resolve`) within this handler, and `s1` is not
touched again. -/
def handleAwaiting (s1 : UserStates) (u : UserId) (text : String)
    (gen : Except PyError (Option String)) : HandleResult :=
  match gen with
  | Except.ok (some url) =>
    ⟨s1, [Reply.generationStarted text, Reply.photo url],
     [JobAction.submit u, JobAction.resolve u]⟩
  | Except.ok none =>
    ⟨s1, [Reply.generationStarted text, Reply.generationFailed],
     [JobAction.submit u, JobAction.resolve u]⟩
  | Except.error _ =>
    ⟨s1, [Reply.generationStarted text, Reply.genericError],
     [JobAction.submit u, JobAction.resolve u]⟩

/-- The text-message handler `handle_message` (main.py lines 57–75).  The
check `user_id in user_states and user_states[user_id] ==
"waiting_for_prompt"` gates prompt acceptance; on acceptance the entry is
deleted (`delState`) before generation is invoked, otherwise the user is
told to press the button first and nothing is mutated. -/
def handle_message (s : UserStates) (u : UserId) (text : String)
    (gen : Except PyError (Option String)) : HandleResult :=
  if s u = some "waiting_for_prompt" then
    handleAwaiting (delState s u) u text gen
  else ⟨s, [Reply.pressButtonFirst], []⟩

/-! ### Serial event traces

Section 5 of the design assumes events are delivered serially: one event is
handled to completion before the next (the code in fact guarantees this
globally, since the handlers block the single event loop).  A trace is a
list of `(user, event)` pairs; each step runs the matching handler to
completion and contributes its job actions. -/

/-- An inbound Telegram update.  A `text` event carries the outcome the
generation call would have for this prompt (the code treats it as opaque). -/
inductive Event where
  | start
  | buttonPress (callbackData : String)
  | text (msg : String) (gen : Except PyError (Option String))

/-- Dispatch of one inbound event to its handler (main.py lines 126–128),
returning the updated `user_states` and the job actions of the step. -/
def stepEvent (s : UserStates) (u : UserId) (e : Event) :
    UserStates × List JobAction :=
  match e with
  | Event.start => ((start s).1, [])
  | Event.buttonPress d => ((button s u d).1, [])
  | Event.text msg gen =>
    ((handle_message s u msg gen).states, (handle_message s u msg gen).jobActions)

/-- Run a trace of events serially from a given `user_states`, collecting
the concatenated job actions in chronological order. -/
def runTrace : UserStates → List (UserId × Event) → UserStates × List JobAction
  | s, [] => (s, [])
  | s, (u, e) :: rest =>
    ((runTrace (stepEvent s u e).1 rest).1,
     (stepEvent s u e).2 ++ (runTrace (stepEvent s u e).1 rest).2)

/-- Number of jobs of user `u` outstanding (submitted, not yet resolved)
after a sequence of job actions: +1 per `submit u`, −1 per `resolve u`. -/
def outstanding (u : UserId) : List JobAction → Int
  | [] => 0
  | JobAction.submit v :: rest => (if v = u then 1 else 0) + outstanding u rest
  | JobAction.resolve v :: rest => (if v = u then -1 else 0) + outstanding u rest

/-- Number of `markAwaitingPrompt` calls for user `u` in a trace: button
presses by `u` with callback data `"generate_image"`. -/
def countMarks (u : UserId) : List (UserId × Event) → Nat
  | [] => 0
  | (v, Event.buttonPress d) :: rest =>
    (if v = u ∧ d = "generate_image" then 1 else 0) + countMarks u rest
  | _ :: rest => countMarks u rest

/-- Number of accepted prompts for user `u` in a trace run from `s`: text
messages by `u` delivered while `u`'s state is `"waiting_for_prompt"`
(exactly the steps where the gate `consumeIfAwaiting` answers true). -/
def countAccepts (u : UserId) : UserStates → List (UserId × Event) → Nat
  | _, [] => 0
  | s, (v, e) :: rest =>
    (match e with
     | Event.text _ _ =>
       if v = u ∧ s v = some "waiting_for_prompt" then 1 else 0
     | _ => 0) + countAccepts u (stepEvent s v e).1 rest

/-! ### Lemmas about the polling loop -/

lemma pollLoop_continue (polls : Nat → PollResponse) (n i : Nat)
    (he : (polls i).httpError = false)
    (hs : (polls i).task_status = some "RUNNING" ∨
      (polls i).task_status = some "PENDING") :
    pollLoop polls (n + 1) i =
      ⟨(pollLoop polls n (i + 1)).result, (pollLoop polls n (i + 1)).pollCount + 1,
       (pollLoop polls n (i + 1)).sleepSeconds + 5, (pollLoop polls n (i + 1)).logs⟩ := by
  rcases hs with hs | hs <;> simp [pollLoop, he, hs]

lemma pollLoop_succeed_cons (polls : Nat → PollResponse) (n i : Nat)
    (img : String) (rest : List String)
    (he : (polls i).httpError = false)
    (hs : (polls i).task_status = some "SUCCEED")
    (hi : (polls i).output_images = some (img :: rest)) :
    pollLoop polls (n + 1) i = ⟨Except.ok (some img), 1, 5, []⟩ := by
  simp [pollLoop, he, hs, hi]

lemma pollLoop_succeed_nil (polls : Nat → PollResponse) (n i : Nat)
    (he : (polls i).httpError = false)
    (hs : (polls i).task_status = some "SUCCEED")
    (hi : (polls i).output_images = some []) :
    pollLoop polls (n + 1) i =
      ⟨Except.ok none, 1, 5, [LogEvent.warnSucceedNoImage]⟩ := by
  simp [pollLoop, he, hs, hi]

lemma pollLoop_succeed_missing (polls : Nat → PollResponse) (n i : Nat)
    (he : (polls i).httpError = false)
    (hs : (polls i).task_status = some "SUCCEED")
    (hi : (polls i).output_images = none) :
    pollLoop polls (n + 1) i =
      ⟨Except.error (PyError.keyError "output_images"), 1, 5, []⟩ := by
  simp [pollLoop, he, hs, hi]

lemma pollLoop_all_running (polls : Nat → PollResponse)
    (hall : ∀ i, (polls i).httpError = false ∧
      (polls i).task_status = some "RUNNING") :
    ∀ n i, pollLoop polls n i = ⟨Except.ok none, n, 5 * n, [LogEvent.errTimeout]⟩ := by
  intro n
  induction n with
  | zero => intro i; rfl
  | succ n ih =>
    intro i
    rw [pollLoop_continue polls n i (hall i).1 (Or.inl (hall i).2), ih (i + 1)]
    simp [Nat.mul_succ]

lemma pollLoop_pollCount_le (polls : Nat → PollResponse) :
    ∀ n i, (pollLoop polls n i).pollCount ≤ n := by
  intro n
  induction n with
  | zero => intro i; exact Nat.le_refl 0
  | succ n ih =>
    intro i
    rw [pollLoop]
    split
    · exact Nat.succ_le_succ (Nat.zero_le n)
    · split
      · exact Nat.succ_le_succ (Nat.zero_le n)
      · split
        · split
          · exact Nat.succ_le_succ (Nat.zero_le n)
          · exact Nat.succ_le_succ (Nat.zero_le n)
          · exact Nat.succ_le_succ (Nat.zero_le n)
        · split
          · exact Nat.succ_le_succ (Nat.zero_le n)
          · split
            · exact Nat.succ_le_succ (ih (i + 1))
            · exact Nat.succ_le_succ (Nat.zero_le n)

lemma generate_eq_pollLoop (create : CreateResponse) (polls : Nat → PollResponse)
    (tid : String) (hce : create.httpError = false)
    (hid : create.task_id = some tid) :
    generate_image_from_prompt create polls = pollLoop polls 20 0 := by
  simp [generate_image_from_prompt, hce, hid]

/-! ### Claims about the generation orchestrator -/

/-- C2: if job creation yields a task id and the polls answer `PENDING`,
then `RUNNING`, then `SUCCEED` with `output_images = [u]`, the generate
call returns `u` after exactly 3 status polls, with at least 10 seconds
slept between submission and return (the code in fact sleeps 15 seconds,
one 5-second wait before each of the 3 polls). -/
theorem C2_three_polls (create : CreateResponse) (polls : Nat → PollResponse)
    (tid u : String)
    (hce : create.httpError = false) (hid : create.task_id = some tid)
    (h0e : (polls 0).httpError = false)
    (h0s : (polls 0).task_status = some "PENDING")
    (h1e : (polls 1).httpError = false)
    (h1s : (polls 1).task_status = some "RUNNING")
    (h2e : (polls 2).httpError = false)
    (h2s : (polls 2).task_status = some "SUCCEED")
    (h2i : (polls 2).output_images = some [u]) :
    (generate_image_from_prompt create polls).result = Except.ok (some u) ∧
    (generate_image_from_prompt create polls).pollCount = 3 ∧
    10 ≤ (generate_image_from_prompt create polls).sleepSeconds := by
  rw [generate_eq_pollLoop create polls tid hce hid,
    show (20 : Nat) = 19 + 1 from rfl,
    pollLoop_continue polls 19 0 h0e (Or.inr h0s),
    show (19 : Nat) = 18 + 1 from rfl,
    pollLoop_continue polls 18 1 h1e (Or.inl h1s),
    show (18 : Nat) = 17 + 1 from rfl,
    pollLoop_succeed_cons polls 17 2 u [] h2e h2s h2i]
  exact ⟨rfl, rfl, by norm_num⟩

/-- Witness for C2 at a concrete response sequence. -/
theorem C2_three_polls_witness :
    (generate_image_from_prompt ⟨false, some "T1"⟩
      (fun i => if i = 0 then ⟨false, some "PENDING", none⟩
        else if i = 1 then ⟨false, some "RUNNING", none⟩
        else ⟨false, some "SUCCEED", some ["u"]⟩)).result = Except.ok (some "u") ∧
    (generate_image_from_prompt ⟨false, some "T1"⟩
      (fun i => if i = 0 then ⟨false, some "PENDING", none⟩
        else if i = 1 then ⟨false, some "RUNNING", none⟩
        else ⟨false, some "SUCCEED", some ["u"]⟩)).pollCount = 3 ∧
    10 ≤ (generate_image_from_prompt ⟨false, some "T1"⟩
      (fun i => if i = 0 then ⟨false, some "PENDING", none⟩
        else if i = 1 then ⟨false, some "RUNNING", none⟩
        else ⟨false, some "SUCCEED", some ["u"]⟩)).sleepSeconds :=
  C2_three_polls ⟨false, some "T1"⟩
    (fun i => if i = 0 then ⟨false, some "PENDING", none⟩
      else if i = 1 then ⟨false, some "RUNNING", none⟩
      else ⟨false, some "SUCCEED", some ["u"]⟩)
    "T1" "u" rfl rfl rfl rfl rfl rfl rfl rfl rfl

/-- C4: if job creation yields a task id and every status poll answers
`RUNNING`, the generate call makes exactly 20 polls, logs a timeout and
returns `None`; moreover for any responses whatsoever the loop never makes
more than 20 poll calls. -/
theorem C4_timeout_twenty_polls (create : CreateResponse)
    (polls : Nat → PollResponse) (tid : String)
    (hce : create.httpError = false) (hid : create.task_id = some tid)
    (hall : ∀ i, (polls i).httpError = false ∧
      (polls i).task_status = some "RUNNING") :
    generate_image_from_prompt create polls =
      ⟨Except.ok none, 20, 100, [LogEvent.errTimeout]⟩ ∧
    ∀ c p, (generate_image_from_prompt c p).pollCount ≤ 20 := by
  constructor
  · rw [generate_eq_pollLoop create polls tid hce hid,
      pollLoop_all_running polls hall 20 0]
  · intro c p
    unfold generate_image_from_prompt
    split
    · exact Nat.zero_le 20
    · split
      · exact Nat.zero_le 20
      · exact pollLoop_pollCount_le p 20 0

/-- Witness for C4 at a concrete all-`RUNNING` response sequence. -/
theorem C4_timeout_twenty_polls_witness :
    generate_image_from_prompt ⟨false, some "T1"⟩
      (fun _ => ⟨false, some "RUNNING", none⟩) =
      ⟨Except.ok none, 20, 100, [LogEvent.errTimeout]⟩ ∧
    ∀ c p, (generate_image_from_prompt c p).pollCount ≤ 20 :=
  C4_timeout_twenty_polls ⟨false, some "T1"⟩
    (fun _ => ⟨false, some "RUNNING", none⟩) "T1" rfl rfl
    (fun _ => ⟨rfl, rfl⟩)

/-- C5: if the job-creation call answers with an HTTP error status, the
generate call raises that transport error unmodified (it does not return
`None`) and makes no status poll at all. -/
theorem C5_create_error_propagates (create : CreateResponse)
    (polls : Nat → PollResponse) (h : create.httpError = true) :
    generate_image_from_prompt create polls =
      ⟨Except.error PyError.httpError, 0, 0, []⟩ := by
  simp [generate_image_from_prompt, h]

/-- Witness for C5 at a concrete erroring creation response. -/
theorem C5_create_error_propagates_witness :
    generate_image_from_prompt ⟨true, none⟩ (fun _ => ⟨false, none, none⟩) =
      ⟨Except.error PyError.httpError, 0, 0, []⟩ :=
  C5_create_error_propagates ⟨true, none⟩ (fun _ => ⟨false, none, none⟩) rfl

/-- C6: on a first poll answering `SUCCEED`, an empty `output_images` list
makes the generate call return `None` (with the anomaly warning logged)
rather than raise, and a non-empty list makes it return the first entry. -/
theorem C6_succeed_images (create : CreateResponse) (polls : Nat → PollResponse)
    (tid : String)
    (hce : create.httpError = false) (hid : create.task_id = some tid)
    (h0e : (polls 0).httpError = false)
    (h0s : (polls 0).task_status = some "SUCCEED") :
    ((polls 0).output_images = some [] →
      (generate_image_from_prompt create polls).result = Except.ok none ∧
      (generate_image_from_prompt create polls).logs =
        [LogEvent.warnSucceedNoImage]) ∧
    (∀ img rest, (polls 0).output_images = some (img :: rest) →
      (generate_image_from_prompt create polls).result = Except.ok (some img)) := by
  constructor
  · intro hi
    rw [generate_eq_pollLoop create polls tid hce hid,
      show (20 : Nat) = 19 + 1 from rfl,
      pollLoop_succeed_nil polls 19 0 h0e h0s hi]
    exact ⟨rfl, rfl⟩
  · intro img rest hi
    rw [generate_eq_pollLoop create polls tid hce hid,
      show (20 : Nat) = 19 + 1 from rfl,
      pollLoop_succeed_cons polls 19 0 img rest h0e h0s hi]

/-- Witness for C6 at a concrete `SUCCEED` response with an empty image
list. -/
theorem C6_succeed_images_witness :
    ((generate_image_from_prompt ⟨false, some "T1"⟩
        (fun _ => ⟨false, some "SUCCEED", some []⟩)).result = Except.ok none ∧
     (generate_image_from_prompt ⟨false, some "T1"⟩
        (fun _ => ⟨false, some "SUCCEED", some []⟩)).logs =
        [LogEvent.warnSucceedNoImage]) :=
  (C6_succeed_images ⟨false, some "T1"⟩
    (fun _ => ⟨false, some "SUCCEED", some []⟩) "T1" rfl rfl rfl rfl).1 rfl

/-- C9: a first poll answering `SUCCEED` with the `output_images` key
absent altogether makes the generate call raise `KeyError` (the
`None`-returning anomaly path needs the key present and empty). -/
theorem C9_missing_images_key (create : CreateResponse)
    (polls : Nat → PollResponse) (tid : String)
    (hce : create.httpError = false) (hid : create.task_id = some tid)
    (h0e : (polls 0).httpError = false)
    (h0s : (polls 0).task_status = some "SUCCEED")
    (h0i : (polls 0).output_images = none) :
    (generate_image_from_prompt create polls).result =
      Except.error (PyError.keyError "output_images") := by
  rw [generate_eq_pollLoop create polls tid hce hid,
    show (20 : Nat) = 19 + 1 from rfl,
    pollLoop_succeed_missing polls 19 0 h0e h0s h0i]

/-- Witness for C9 at a concrete `SUCCEED` response missing the key. -/
theorem C9_missing_images_key_witness :
    (generate_image_from_prompt ⟨false, some "T1"⟩
      (fun _ => ⟨false, some "SUCCEED", none⟩)).result =
      Except.error (PyError.keyError "output_images") :=
  C9_missing_images_key ⟨false, some "T1"⟩
    (fun _ => ⟨false, some "SUCCEED", none⟩) "T1" rfl rfl rfl rfl rfl

/-! ### Lemmas about the message handler -/

lemma handle_message_states (s : UserStates) (u : UserId) (text : String)
    (gen : Except PyError (Option String)) :
    (handle_message s u text gen).states =
      if s u = some "waiting_for_prompt" then delState s u else s := by
  by_cases h : s u = some "waiting_for_prompt"
  · unfold handle_message
    rw [if_pos h, if_pos h]
    cases gen with
    | ok o => cases o <;> rfl
    | error e => rfl
  · unfold handle_message
    rw [if_neg h, if_neg h]

lemma handle_message_jobActions (s : UserStates) (u : UserId) (text : String)
    (gen : Except PyError (Option String)) :
    (handle_message s u text gen).jobActions =
      if s u = some "waiting_for_prompt" then
        [JobAction.submit u, JobAction.resolve u]
      else [] := by
  by_cases h : s u = some "waiting_for_prompt"
  · unfold handle_message
    rw [if_pos h, if_pos h]
    cases gen with
    | ok o => cases o <;> rfl
    | error e => rfl
  · unfold handle_message
    rw [if_neg h, if_neg h]

/-! ### Claims about the message handler -/

/-- C7: a text message from a user whose session is not awaiting a prompt
yields exactly the "press the button first" reply, performs no job action
(generation is not invoked), and leaves `user_states` unchanged. -/
theorem C7_not_awaiting (s : UserStates) (u : UserId) (text : String)
    (gen : Except PyError (Option String))
    (h : s u ≠ some "waiting_for_prompt") :
    handle_message s u text gen = ⟨s, [Reply.pressButtonFirst], []⟩ := by
  unfold handle_message
  rw [if_neg h]

/-- Witness for C7 at the empty state. -/
theorem C7_not_awaiting_witness :
    handle_message emptyStates 0 "hi" (Except.ok none) =
      ⟨emptyStates, [Reply.pressButtonFirst], []⟩ :=
  C7_not_awaiting emptyStates 0 "hi" (Except.ok none) (by decide)

/-- C8: an exception raised by the generation call for an awaiting user is
caught by the handler (which returns a normal result rather than
propagating) and surfaced as the generic error reply, and for every
generation outcome the session entries of every other user are left
unchanged. -/
theorem C8_errors_caught (s : UserStates) (u : UserId) (text : String)
    (e : PyError) (h : s u = some "waiting_for_prompt") :
    (handle_message s u text (Except.error e)).replies =
      [Reply.generationStarted text, Reply.genericError] ∧
    (∀ gen v, v ≠ u → (handle_message s u text gen).states v = s v) := by
  constructor
  · unfold handle_message
    rw [if_pos h]
    rfl
  · intro gen v hv
    rw [handle_message_states]
    by_cases hw : s u = some "waiting_for_prompt"
    · rw [if_pos hw]
      unfold delState
      rw [if_neg hv]
    · rw [if_neg hw]

/-- Witness for C8 with one awaiting user and one idle bystander. -/
theorem C8_errors_caught_witness :
    (handle_message
        (fun v => if v = 0 then some "waiting_for_prompt" else none)
        0 "hi" (Except.error PyError.httpError)).replies =
      [Reply.generationStarted "hi", Reply.genericError] ∧
    (handle_message
        (fun v => if v = 0 then some "waiting_for_prompt" else none)
        0 "hi" (Except.error PyError.httpError)).states 1 = none :=
  ⟨(C8_errors_caught (fun v => if v = 0 then some "waiting_for_prompt" else none)
      0 "hi" PyError.httpError (by decide)).1,
   (C8_errors_caught (fun v => if v = 0 then some "waiting_for_prompt" else none)
      0 "hi" PyError.httpError (by decide)).2
      (Except.error PyError.httpError) 1 (by decide)⟩

/-- C10: when a prompt is accepted the user's entry is deleted before
generation is invoked — `handle_message` reduces to `handleAwaiting`
applied to the deleted map, in which the user reads as `none` (implicit
idle); the map stays deleted whatever the generation outcome; and a button
press on that map re-enters the awaiting state. -/
theorem C10_deleted_before_generate (s : UserStates) (u : UserId)
    (text : String) (gen : Except PyError (Option String))
    (h : s u = some "waiting_for_prompt") :
    handle_message s u text gen = handleAwaiting (delState s u) u text gen ∧
    delState s u u = none ∧
    (∀ g, (handleAwaiting (delState s u) u text g).states = delState s u) ∧
    (button (delState s u) u "generate_image").1 u = some "waiting_for_prompt" := by
  refine ⟨?_, ?_, ?_, ?_⟩
  · unfold handle_message
    rw [if_pos h]
  · unfold delState
    rw [if_pos rfl]
  · intro g
    cases g with
    | ok o => cases o <;> rfl
    | error e => rfl
  · unfold button
    rw [if_pos rfl]
    show (if u = u then some "waiting_for_prompt" else delState s u u) = _
    rw [if_pos rfl]

/-- Witness for C10 with one concrete awaiting user. -/
theorem C10_deleted_before_generate_witness :
    delState (fun v => if v = 0 then some "waiting_for_prompt" else none) 0 0 =
      none ∧
    (button (delState (fun v => if v = 0 then some "waiting_for_prompt" else none) 0)
        0 "generate_image").1 0 = some "waiting_for_prompt" :=
  ⟨(C10_deleted_before_generate
      (fun v => if v = 0 then some "waiting_for_prompt" else none)
      0 "hi" (Except.ok none) (by decide)).2.1,
   (C10_deleted_before_generate
      (fun v => if v = 0 then some "waiting_for_prompt" else none)
      0 "hi" (Except.ok none) (by decide)).2.2.2⟩

/-! ### Consumption is gated: accepted prompts never outnumber button
presses -/

lemma countAccepts_le (u : UserId) :
    ∀ (tr : List (UserId × Event)) (s : UserStates),
      countAccepts u s tr ≤ countMarks u tr +
        (if s u = some "waiting_for_prompt" then 1 else 0) := by
  intro tr
  induction tr with
  | nil => intro s; exact Nat.zero_le _
  | cons pe rest ih =>
    intro s
    obtain ⟨v, e⟩ := pe
    cases e with
    | start =>
      have hacc : countAccepts u s ((v, Event.start) :: rest) =
          countAccepts u s rest := by
        simp [countAccepts, stepEvent, start]
      have hmark : countMarks u ((v, Event.start) :: rest) =
          countMarks u rest := by
        simp [countMarks]
      rw [hacc, hmark]
      exact ih s
    | buttonPress d =>
      have hacc : countAccepts u s ((v, Event.buttonPress d) :: rest) =
          countAccepts u (button s v d).1 rest := by
        simp [countAccepts, stepEvent]
      rw [hacc]
      by_cases hd : d = "generate_image"
      · subst hd
        by_cases hv : v = u
        · rw [hv]
          have hmark : countMarks u ((u, Event.buttonPress "generate_image") :: rest) =
              1 + countMarks u rest := by
            simp [countMarks]
          rw [hmark]
          have hstate : (button s u "generate_image").1 u =
              some "waiting_for_prompt" := by
            simp [button, setState]
          have hih := ih (button s u "generate_image").1
          rw [hstate] at hih
          simp at hih
          omega
        · have hvu : ¬(u = v) := fun hh => hv hh.symm
          have hmark : countMarks u ((v, Event.buttonPress "generate_image") :: rest) =
              countMarks u rest := by
            simp [countMarks, hv]
          rw [hmark]
          have hstate : (button s v "generate_image").1 u = s u := by
            simp [button, setState, hvu]
          have hih := ih (button s v "generate_image").1
          rw [hstate] at hih
          omega
      · have hmark : countMarks u ((v, Event.buttonPress d) :: rest) =
            countMarks u rest := by
          simp [countMarks, hd]
        have hb : (button s v d).1 = s := by
          simp [button, hd]
        rw [hmark, hb]
        exact ih s
    | text msg gen =>
      have hmark : countMarks u ((v, Event.text msg gen) :: rest) =
          countMarks u rest := by
        simp [countMarks]
      have hacc : countAccepts u s ((v, Event.text msg gen) :: rest) =
          (if v = u ∧ s v = some "waiting_for_prompt" then 1 else 0) +
          countAccepts u (handle_message s v msg gen).states rest := by
        simp [countAccepts, stepEvent]
      rw [hacc, hmark]
      by_cases hw : s v = some "waiting_for_prompt"
      · have hst : (handle_message s v msg gen).states = delState s v := by
          rw [handle_message_states, if_pos hw]
        rw [hst]
        by_cases hv : v = u
        · rw [hv] at hw ⊢
          have hdel : delState s u u = none := by
            simp [delState]
          have hih := ih (delState s u)
          rw [hdel] at hih
          simp at hih
          simp [hw]
          omega
        · have hvu : ¬(u = v) := fun hh => hv hh.symm
          have hdel : delState s v u = s u := by
            simp [delState, hvu]
          have hih := ih (delState s v)
          rw [hdel] at hih
          have hc : ¬(v = u ∧ s v = some "waiting_for_prompt") :=
            fun hc => hv hc.1
          rw [if_neg hc]
          omega
      · have hst : (handle_message s v msg gen).states = s := by
          rw [handle_message_states, if_neg hw]
        rw [hst]
        have hcond : ¬(v = u ∧ s v = some "waiting_for_prompt") := by
          intro hc
          exact hw hc.2
        rw [if_neg hcond]
        have hih := ih s
        omega

/-- C3: over every serial event trace from the initial empty state, the
number of accepted prompts of a user (steps where the awaiting check
answers true and is cleared) never exceeds the number of that user's
button presses; moreover two consecutive text messages from one user
accept at most one prompt, whatever state they start from. -/
theorem C3_consume_at_most_once (u : UserId) (tr : List (UserId × Event)) :
    countAccepts u emptyStates tr ≤ countMarks u tr ∧
    ∀ (s : UserStates) (t1 t2 : String)
      (g1 g2 : Except PyError (Option String)),
      countAccepts u s [(u, Event.text t1 g1), (u, Event.text t2 g2)] ≤ 1 := by
  constructor
  · have h := countAccepts_le u tr emptyStates
    simpa [emptyStates] using h
  · intro s t1 t2 g1 g2
    by_cases hw : s u = some "waiting_for_prompt"
    · simp [countAccepts, stepEvent, hw, handle_message_states, delState]
    · simp [countAccepts, stepEvent, hw, handle_message_states]

/-! ### At most one outstanding job per user -/

lemma outstanding_append (u : UserId) (l₁ l₂ : List JobAction) :
    outstanding u (l₁ ++ l₂) = outstanding u l₁ + outstanding u l₂ := by
  induction l₁ with
  | nil => simp [outstanding]
  | cons a t ih => cases a <;> simp [outstanding, ih, add_assoc]

lemma outstanding_pair (u v : UserId) :
    outstanding u [JobAction.submit v, JobAction.resolve v] = 0 := by
  by_cases h : v = u <;> simp [outstanding, h]

lemma outstanding_single (u v : UserId) :
    outstanding u [JobAction.submit v] ≤ 1 := by
  by_cases h : v = u <;> simp [outstanding, h]

lemma pre_pair {α : Type} {p : List α} {x y : α} (h : p <+: [x, y]) :
    p = [] ∨ p = [x] ∨ p = [x, y] := by
  obtain ⟨t, ht⟩ := h
  cases p with
  | nil => exact Or.inl rfl
  | cons a p' =>
    rw [List.cons_append] at ht
    injection ht with h1 h2
    subst h1
    cases p' with
    | nil => exact Or.inr (Or.inl rfl)
    | cons b p'' =>
      rw [List.cons_append] at h2
      injection h2 with h3 h4
      subst h3
      have h5 := List.append_eq_nil.mp h4
      rw [h5.1]
      exact Or.inr (Or.inr rfl)

lemma pre_append_cases {α : Type} {p l₁ l₂ : List α} (h : p <+: l₁ ++ l₂) :
    p <+: l₁ ∨ ∃ q, p = l₁ ++ q ∧ q <+: l₂ := by
  induction l₁ generalizing p with
  | nil => exact Or.inr ⟨p, rfl, h⟩
  | cons a t ih =>
    cases p with
    | nil => exact Or.inl (List.nil_prefix)
    | cons b p' =>
      obtain ⟨r, hr⟩ := h
      rw [List.cons_append, List.cons_append] at hr
      injection hr with h1 h2
      subst h1
      rcases ih ⟨r, h2⟩ with hp | ⟨q, hq1, hq2⟩
      · exact Or.inl (List.cons_prefix_cons.mpr ⟨rfl, hp⟩)
      · refine Or.inr ⟨q, ?_, hq2⟩
        rw [hq1, List.cons_append]

lemma stepEvent_jobActions (s : UserStates) (v : UserId) (e : Event) :
    (stepEvent s v e).2 = [] ∨
    ((stepEvent s v e).2 = [JobAction.submit v, JobAction.resolve v] ∧
      s v = some "waiting_for_prompt") := by
  cases e with
  | start => exact Or.inl rfl
  | buttonPress d => exact Or.inl rfl
  | text msg gen =>
    by_cases h : s v = some "waiting_for_prompt"
    · refine Or.inr ⟨?_, h⟩
      show (handle_message s v msg gen).jobActions = _
      rw [handle_message_jobActions, if_pos h]
    · refine Or.inl ?_
      show (handle_message s v msg gen).jobActions = _
      rw [handle_message_jobActions, if_neg h]

lemma runTrace_outstanding (u : UserId) :
    ∀ (tr : List (UserId × Event)) (s : UserStates),
      (∀ p, p <+: (runTrace s tr).2 → outstanding u p ≤ 1) ∧
      outstanding u (runTrace s tr).2 = 0 := by
  intro tr
  induction tr with
  | nil =>
    intro s
    constructor
    · intro p hp
      obtain ⟨t, ht⟩ := hp
      have hp0 := (List.append_eq_nil.mp ht).1
      rw [hp0]
      norm_num [outstanding]
    · rfl
  | cons pe rest ih =>
    intro s
    obtain ⟨v, e⟩ := pe
    have hrt : (runTrace s ((v, e) :: rest)).2 =
        (stepEvent s v e).2 ++ (runTrace (stepEvent s v e).1 rest).2 := rfl
    obtain ⟨ihp, ihz⟩ := ih (stepEvent s v e).1
    rcases stepEvent_jobActions s v e with hb | ⟨hb, _⟩
    · constructor
      · intro p hp
        rw [hrt, hb, List.nil_append] at hp
        exact ihp p hp
      · rw [hrt, hb, List.nil_append]
        exact ihz
    · constructor
      · intro p hp
        rw [hrt, hb] at hp
        rcases pre_append_cases hp with hp1 | ⟨q, hq1, hq2⟩
        · rcases pre_pair hp1 with h0 | h1 | h2
          · rw [h0]; norm_num [outstanding]
          · rw [h1]; exact outstanding_single u v
          · rw [h2, outstanding_pair]; norm_num
        · rw [hq1, outstanding_append, outstanding_pair]
          have hq := ihp q hq2
          omega
      · rw [hrt, hb, outstanding_append, outstanding_pair, ihz]
        norm_num

/-- C1: over every serial event trace from the initial empty state — the
concurrency model of the code, whose handlers run each update to
completion — a user never has more than one generation job outstanding at
any point of the job-action history, and a step performs job actions only
when that user's session was gating-state `AwaitingPrompt` before it. -/
theorem C1_one_outstanding_job (u : UserId) (tr : List (UserId × Event)) :
    (∀ p, p <+: (runTrace emptyStates tr).2 → outstanding u p ≤ 1) ∧
    (∀ (s : UserStates) (v : UserId) (e : Event),
      (stepEvent s v e).2 ≠ [] → s v = some "waiting_for_prompt") := by
  constructor
  · exact (runTrace_outstanding u tr emptyStates).1
  · intro s v e hne
    rcases stepEvent_jobActions s v e with h | ⟨_, h⟩
    · exact absurd h hne
    · exact h

/-- Witness for C1 on a two-event trace whose job history is
`[submit 0, resolve 0]`, checked at the prefix `[submit 0]`. -/
theorem C1_one_outstanding_job_witness :
    outstanding 0 [JobAction.submit 0] ≤ 1 :=
  (C1_one_outstanding_job 0
    [(0, Event.buttonPress "generate_image"),
     (0, Event.text "hi" (Except.ok (some "u")))]).1
    [JobAction.submit 0] (by decide)

end TgBot
